import Mathlib

/-!
Shallow embedding of the vendored `proxmoxia` client
(`src/proxmox_mcp/vendor/proxmoxia/__init__.py`): the dynamic REST
path-builder, the transport error classification, and the two
authentication procedures.  HTTP traffic is modelled by an explicit
`HttpResult` input (what the network returned), and each Python method
becomes a pure Lean function over that input.
-/

namespace Proxmoxia

/-- JSON values, the shape of a decoded response body. -/
inductive Json where
  | null
  | bool (b : Bool)
  | num (n : Int)
  | str (s : String)
  | arr (elems : List Json)
  | obj (fields : List (String × Json))
deriving Repr

/-- Python `dict.get(k)`: the value stored under `k`, or `None`. -/
def dictGet (k : String) : List (String × Json) → Option Json
  | [] => none
  | (k2, v) :: rest => if k2 = k then some v else dictGet k rest

/-- Python truthiness of a JSON value (`if not data:` in `get_auth_token`). -/
def Json.truthy : Json → Bool
  | .null => false
  | .bool b => b
  | .num n => n ≠ 0
  | .str s => s ≠ ""
  | .arr elems => !elems.isEmpty
  | .obj fields => !fields.isEmpty

/-- The UTF-8 bytes of a character, as used by `urllib.parse.quote`. -/
def utf8Bytes (c : Char) : List Nat :=
  let n := c.toNat
  if n < 0x80 then [n]
  else if n < 0x800 then [0xC0 + n / 64, 0x80 + n % 64]
  else if n < 0x10000 then [0xE0 + n / 4096, 0x80 + (n / 64) % 64, 0x80 + n % 64]
  else [0xF0 + n / 262144, 0x80 + (n / 4096) % 64, 0x80 + (n / 64) % 64, 0x80 + n % 64]

/-- Uppercase hexadecimal digit, for percent-escapes. -/
def hexDigit (n : Nat) : Char :=
  if n < 10 then Char.ofNat (48 + n) else Char.ofNat (55 + n)

/-- Percent-escape of one byte: `"%XX"` with uppercase hex. -/
def percentEscape (b : Nat) : String :=
  ⟨['%', hexDigit (b / 16), hexDigit (b % 16)]⟩

/-- Characters `urllib.parse.quote` never escapes (`ALWAYS_SAFE`). -/
def isAlwaysSafe (c : Char) : Bool :=
  (65 ≤ c.toNat && c.toNat ≤ 90) || (97 ≤ c.toNat && c.toNat ≤ 122) ||
  (48 ≤ c.toNat && c.toNat ≤ 57) ||
  c = '_' || c = '.' || c = '-' || c = '~'

/-- Python `urllib.parse.quote(s)` with its default `safe='/'`: letters,
digits, `_.-~` and `/` pass through, everything else is percent-escaped
byte by byte over the UTF-8 encoding. -/
def quote (s : String) : String :=
  String.join (s.data.map fun c =>
    if isAlwaysSafe c || c = '/' then String.singleton c
    else String.join ((utf8Bytes c).map percentEscape))

/-- Query / form parameters, Python `kwargs` as an association list. -/
abbrev Params := List (String × String)

/-- The exceptions the client code can surface.  `proxmoxAuthError`,
`proxmoxConnectionError` and `proxmoxError` are the module's own classes
(`ProxmoxError` is the base class, raised as such only for a malformed
JSON body in `_request`); the remaining constructors are Python
exceptions the code lets escape unwrapped. -/
inductive PyError where
  | proxmoxAuthError
  | proxmoxConnectionError
  | proxmoxError
  | jsonDecodeError
  | keyError
  | typeError
  | attributeError
deriving DecidableEq, Repr

/-- What the network returned for one HTTP call: either a failure before
any response existed (`requests.RequestException` that is not an
`HTTPError`: DNS, refusal, timeout), or a response with a status code and
a body — `none` standing for a body that is not valid JSON. -/
inductive HttpResult where
  | netFail
  | resp (status : Nat) (body : Option Json)
deriving Repr

/-- Credentials holder (`ProxmoxAuthToken` dataclass): either a
ticket/CSRF pair from ticket auth or a prebuilt token header. -/
structure ProxmoxAuthToken where
  ticket : Option Json
  csrf : Option Json
  token_header : Option String
deriving Repr

/-- Session configuration fixed at `ConnectorAPI.__init__`. -/
structure ConnectorAPIState where
  host : String
  port : Nat
  verify_ssl : Bool
  baseurl : String
deriving DecidableEq, Repr

namespace ConnectorAPI

/-- Constructor of `ConnectorAPI`: derives
`baseurl = "https://{host}:{port}/api2/json"`. -/
def init (hostname : String) (port : Nat) (verify_ssl : Bool) : ConnectorAPIState :=
  ⟨hostname, port, verify_ssl,
    "https://" ++ hostname ++ ":" ++ toString port ++ "/api2/json"⟩

/-- The single HTTP request `_request` hands to `session.request`:
`url = baseurl + "/" + filter_path`; `params` go to the query string for
GET and to the form body otherwise (lines 74–82 of the source). -/
structure SentRequest where
  method : String
  url : String
  queryParams : Option Params
  bodyData : Option Params
deriving DecidableEq, Repr

/-- How `_request` builds the outgoing request from its arguments. -/
def buildRequest (baseurl method filter_path : String) (params : Option Params) :
    SentRequest :=
  ⟨method, baseurl ++ "/" ++ filter_path,
    if method = "GET" then params else none,
    if method = "GET" then none else params⟩

/-- Response handling of `_request`: `raise_for_status` classified in the
`except` clauses (`HTTPError` with status 401/403 → `ProxmoxAuthError`,
other `HTTPError` → `ProxmoxConnectionError`, bare `RequestException` →
`ProxmoxConnectionError`), then `response.json()` (`ValueError` →
`ProxmoxError`), then `payload.get("data")` (an `AttributeError` escapes
when the payload is valid JSON but not an object). -/
def handleResponse (outcome : HttpResult) : Except PyError (Option Json) :=
  match outcome with
  | .netFail => .error .proxmoxConnectionError
  | .resp status body =>
    if 400 ≤ status then
      if status = 401 ∨ status = 403 then .error .proxmoxAuthError
      else .error .proxmoxConnectionError
    else
      match body with
      | none => .error .proxmoxError
      | some (.obj fields) => .ok (dictGet "data" fields)
      | some _ => .error .attributeError

/-- `ConnectorAPI._request`: the request sent, paired with the value
returned (or exception raised) for the given network outcome. -/
def request (baseurl method filter_path : String) (params : Option Params)
    (outcome : HttpResult) : SentRequest × Except PyError (Option Json) :=
  (buildRequest baseurl method filter_path params, handleResponse outcome)

/-- `ConnectorAPI.get`. -/
def get (baseurl filter_path : String) (arguments : Option Params)
    (outcome : HttpResult) : SentRequest × Except PyError (Option Json) :=
  request baseurl "GET" filter_path arguments outcome

/-- `params or {}` applied by `post`/`put`/`delete` before `_request`:
`None` and the empty dict are falsy, so both become `{}`. -/
def orEmpty (params : Option Params) : Option Params :=
  some (params.getD [])

/-- `ConnectorAPI.post`. -/
def post (baseurl filter_path : String) (params : Option Params)
    (outcome : HttpResult) : SentRequest × Except PyError (Option Json) :=
  request baseurl "POST" filter_path (orEmpty params) outcome

/-- `ConnectorAPI.put`. -/
def put (baseurl filter_path : String) (params : Option Params)
    (outcome : HttpResult) : SentRequest × Except PyError (Option Json) :=
  request baseurl "PUT" filter_path (orEmpty params) outcome

/-- `ConnectorAPI.delete`. -/
def delete (baseurl filter_path : String) (params : Option Params)
    (outcome : HttpResult) : SentRequest × Except PyError (Option Json) :=
  request baseurl "DELETE" filter_path (orEmpty params) outcome

end ConnectorAPI

/-- Python subscript `d[k]` on a JSON value: `KeyError` when an object
lacks the key, `TypeError` on a string subscript of a non-object. -/
def Json.subscript : Json → String → Except PyError Json
  | .obj fields, k =>
    match dictGet k fields with
    | some v => .ok v
    | none => .error .keyError
  | _, _ => .error .typeError

namespace Connector

/-- `Connector.get_auth_token(username, password)`: POST to
`access/ticket`, every `HTTPError` mapped to `ProxmoxAuthError`, other
`RequestException` to `ProxmoxConnectionError`; `response.json()` sits
outside the `try`, so a non-JSON body escapes as a raw
`JSONDecodeError`.  Returns the result together with the connector's
`_auth` field after the call (`auth0` is its value before). -/
def get_auth_token (auth0 : Option ProxmoxAuthToken) (outcome : HttpResult) :
    Except PyError ProxmoxAuthToken × Option ProxmoxAuthToken :=
  match outcome with
  | .netFail => (.error .proxmoxConnectionError, auth0)
  | .resp status body =>
    if 400 ≤ status then (.error .proxmoxAuthError, auth0)
    else
      match body with
      | none => (.error .jsonDecodeError, auth0)
      | some payload =>
        match payload with
        | .obj fields =>
          let data := dictGet "data" fields
          match data with
          | none => (.error .proxmoxAuthError, auth0)
          | some d =>
            if d.truthy = false then (.error .proxmoxAuthError, auth0)
            else
              match d.subscript "ticket" with
              | .error e => (.error e, auth0)
              | .ok t =>
                match d.subscript "CSRFPreventionToken" with
                | .error e => (.error e, auth0)
                | .ok c =>
                  let token : ProxmoxAuthToken := ⟨some t, some c, none⟩
                  (.ok token, some token)
        | _ => (.error .attributeError, auth0)

/-- `Connector.use_api_token(username, token_name, token_value)`: a
username without `@` raises `ProxmoxAuthError` before anything else
happens; otherwise the header string is built, stored as `_auth` and
returned.  No `HttpResult` is consumed: the procedure performs no
network call.  Returns the result together with `_auth` after the call. -/
def use_api_token (auth0 : Option ProxmoxAuthToken)
    (username token_name token_value : String) :
    Except PyError ProxmoxAuthToken × Option ProxmoxAuthToken :=
  if ¬ username.data.contains '@' then (.error .proxmoxAuthError, auth0)
  else
    let header := "PVEAPIToken=" ++ username ++ "!" ++ token_name ++ "=" ++ token_value
    let token : ProxmoxAuthToken := ⟨none, none, some header⟩
    (.ok token, some token)

end Connector

/-- The four HTTP verbs of the dynamic dispatch layer. -/
inductive Verb where
  | get
  | post
  | put
  | delete
deriving DecidableEq, Repr

/-- Verb name as sent to `_request`. -/
def Verb.method : Verb → String
  | .get => "GET"
  | .post => "POST"
  | .put => "PUT"
  | .delete => "DELETE"

/-- One value of the dynamic dispatch layer, identified by the class of
the Python object and its accumulated `method_name` path: `building` is
a plain `AttrMethod`, `verbBound v` one of the `Attr…Method` verb
subclasses. -/
inductive PathValue where
  | building (method_name : String)
  | verbBound (v : Verb) (method_name : String)
deriving DecidableEq, Repr

/-- Outcome of invoking a path value: either a fresh chainable value, or
a transport invocation `parent.<verb>(filter_path, params)`. -/
inductive CallResult where
  | chained (v : PathValue)
  | executed (v : Verb) (filter_path : String) (params : Option Params)
deriving DecidableEq, Repr

namespace AttrMethod

/-- `AttrMethod.__getattr__` (inherited unchanged by every verb
subclass): the attribute name is percent-encoded; the four reserved
names select a verb subclass over the path so far, anything else is
joined to the path with `/`. -/
def getattr (method_name key : String) : PathValue :=
  let encoded := quote key
  if encoded = "post" then .verbBound .post method_name
  else if encoded = "put" then .verbBound .put method_name
  else if encoded = "delete" then .verbBound .delete method_name
  else if encoded = "get" then .verbBound .get method_name
  else .building (method_name ++ "/" ++ encoded)

/-- `AttrMethod.__call__(*args, **kwargs)`: with positional arguments a
fresh `AttrMethod` over the `/`-joined extension (keyword arguments are
never read on this branch); with none, `parent.get(method_name, kwargs
or None)`. -/
def call (method_name : String) (args : List String) (kwargs : Params) :
    CallResult :=
  if args ≠ [] then
    .chained (.building (String.intercalate "/" (method_name :: args.map quote)))
  else
    .executed .get method_name (if kwargs = [] then none else some kwargs)

/-- `Attr{Get,Post,Put,Delete}Method.__call__(**kwargs)`: the bound verb
runs on the accumulated path with `kwargs or None`. -/
def callVerb (v : Verb) (method_name : String) (kwargs : Params) : CallResult :=
  .executed v method_name (if kwargs = [] then none else some kwargs)

end AttrMethod

/-- Invoking any path value (dispatch on the Python class). -/
def PathValue.call (p : PathValue) (args : List String) (kwargs : Params) :
    CallResult :=
  match p with
  | .building name => AttrMethod.call name args kwargs
  | .verbBound v name => AttrMethod.callVerb v name kwargs

/-- Attribute access on any path value (`__getattr__` is inherited). -/
def PathValue.getattr (p : PathValue) (key : String) : PathValue :=
  match p with
  | .building name => AttrMethod.getattr name key
  | .verbBound _ name => AttrMethod.getattr name key

/-- `Proxmox.__getattr__`: the root wraps its key into a fresh
`AttrMethod` whose path is the bare key (no encoding, no verb check at
the root). -/
def Proxmox.getattr (key : String) : PathValue :=
  .building key

/-- `Proxmox.__init__(conn)`: copies host, port and TLS flag and
re-derives the same `baseurl` as the connector. -/
def Proxmox.init (conn : ConnectorAPIState) : ConnectorAPIState :=
  ConnectorAPI.init conn.host conn.port conn.verify_ssl

/-- `Node.__init__(conn, node)`: a `Proxmox` root whose `baseurl` is
extended with `/nodes/{node}` — the node string is interpolated as-is. -/
def Node.init (conn : ConnectorAPIState) (node : String) : ConnectorAPIState :=
  let p := Proxmox.init conn
  ⟨p.host, p.port, p.verify_ssl, p.baseurl ++ "/nodes/" ++ node⟩

/-- The HTTP requests a call outcome causes through a transport with the
given `baseurl`: a chained value sends nothing; an executed verb reaches
`_request` exactly once, `get` passing its params through and the other
verbs applying `params or {}` first. -/
def CallResult.requests (baseurl : String) : CallResult → List ConnectorAPI.SentRequest
  | .chained _ => []
  | .executed .get fp params =>
      [ConnectorAPI.buildRequest baseurl "GET" fp params]
  | .executed v fp params =>
      [ConnectorAPI.buildRequest baseurl v.method fp (ConnectorAPI.orEmpty params)]

/-- The `/`-separated segments of an accumulated path string. -/
def pathSegments (s : String) : List String :=
  (s.data.foldr
    (fun c acc =>
      match acc with
      | seg :: rest => if c = '/' then [] :: (seg :: rest) else (c :: seg) :: rest
      | [] => [[c]])
    [[]]).map fun cs => ⟨cs⟩

end Proxmoxia

namespace Proxmoxia

/-- C1: evaluating the chain `root.nodes("pve").qemu()` walks through
Building-state values only (so the attribute step and the
positional-argument call issue no request) and the final bare call
executes exactly one GET whose path is `nodes/pve/qemu` with no query
parameters. -/
theorem chain_nodes_pve_qemu_single_get :
    Proxmox.getattr "nodes" = .building "nodes"
  ∧ (Proxmox.getattr "nodes").call ["pve"] [] = .chained (.building "nodes/pve")
  ∧ (∀ baseurl, CallResult.requests baseurl ((Proxmox.getattr "nodes").call ["pve"] []) = [])
  ∧ (PathValue.building "nodes/pve").getattr "qemu" = .building "nodes/pve/qemu"
  ∧ (PathValue.building "nodes/pve/qemu").call [] [] = .executed .get "nodes/pve/qemu" none
  ∧ (∀ baseurl, CallResult.requests baseurl ((PathValue.building "nodes/pve/qemu").call [] [])
      = [⟨"GET", baseurl ++ "/" ++ "nodes/pve/qemu", none, none⟩]) :=
  ⟨rfl, rfl, fun _ => rfl, rfl, rfl, fun _ => rfl⟩

/-- C2: `_request` maps an HTTP error status of 401 or 403 to
`ProxmoxAuthError`, any other error status to `ProxmoxConnectionError`,
a network-level failure to `ProxmoxConnectionError`, and a successful
status with a body that is not valid JSON to the `ProxmoxError`
protocol error. -/
theorem request_error_taxonomy (baseurl method fp : String) (params : Option Params)
    (status : Nat) (body : Option Json) :
    ((status = 401 ∨ status = 403) →
      (ConnectorAPI.request baseurl method fp params (.resp status body)).2
        = .error .proxmoxAuthError)
  ∧ (400 ≤ status → status ≠ 401 → status ≠ 403 →
      (ConnectorAPI.request baseurl method fp params (.resp status body)).2
        = .error .proxmoxConnectionError)
  ∧ ((ConnectorAPI.request baseurl method fp params .netFail).2
        = .error .proxmoxConnectionError)
  ∧ (status < 400 →
      (ConnectorAPI.request baseurl method fp params (.resp status none)).2
        = .error .proxmoxError) := by
  refine ⟨fun h => ?_, fun h400 h1 h3 => ?_, rfl, fun hlt => ?_⟩
  · have h400 : 400 ≤ status := by rcases h with h | h <;> omega
    simp [ConnectorAPI.request, ConnectorAPI.handleResponse, h400, h]
  · simp [ConnectorAPI.request, ConnectorAPI.handleResponse, h400, h1, h3]
  · have h400 : ¬ 400 ≤ status := by omega
    simp [ConnectorAPI.request, ConnectorAPI.handleResponse, h400]

/-- Witness for C2 at statuses 401, 500 and 200. -/
theorem request_error_taxonomy_witness :
    (ConnectorAPI.request "B" "GET" "p" none (.resp 401 (some (.obj [])))).2
      = .error .proxmoxAuthError
  ∧ (ConnectorAPI.request "B" "GET" "p" none (.resp 500 (some (.obj [])))).2
      = .error .proxmoxConnectionError
  ∧ (ConnectorAPI.request "B" "GET" "p" none (.resp 200 none)).2
      = .error .proxmoxError :=
  ⟨(request_error_taxonomy "B" "GET" "p" none 401 (some (.obj []))).1 (Or.inl rfl),
   (request_error_taxonomy "B" "GET" "p" none 500 (some (.obj []))).2.1
     (by omega) (by omega) (by omega),
   (request_error_taxonomy "B" "GET" "p" none 200 none).2.2.2 (by omega)⟩

/-- C3: with a realm-qualified username, `use_api_token` stores and
returns an auth token whose header equals
`PVEAPIToken={username}!{token_name}={token_value}`; the definition
consumes no `HttpResult`, so no network call is involved. -/
theorem use_api_token_header (auth0 : Option ProxmoxAuthToken)
    (username token_name token_value : String)
    (h : username.data.contains '@' = true) :
    Connector.use_api_token auth0 username token_name token_value =
      (.ok ⟨none, none,
         some ("PVEAPIToken=" ++ username ++ "!" ++ token_name ++ "=" ++ token_value)⟩,
       some ⟨none, none,
         some ("PVEAPIToken=" ++ username ++ "!" ++ token_name ++ "=" ++ token_value)⟩) := by
  unfold Connector.use_api_token
  rw [if_neg (not_not_intro h)]

/-- Witness for C3 at `api@pve` / `demo` / `abc123`. -/
theorem use_api_token_header_witness :
    Connector.use_api_token none "api@pve" "demo" "abc123" =
      (.ok ⟨none, none, some "PVEAPIToken=api@pve!demo=abc123"⟩,
       some ⟨none, none, some "PVEAPIToken=api@pve!demo=abc123"⟩) :=
  use_api_token_header none "api@pve" "demo" "abc123" (by decide)

/-- C5: with a username lacking `@`, `use_api_token` raises
`ProxmoxAuthError` and leaves the stored auth token unchanged; the
definition consumes no `HttpResult`, so no network call is involved. -/
theorem use_api_token_no_realm (auth0 : Option ProxmoxAuthToken)
    (username token_name token_value : String)
    (h : username.data.contains '@' = false) :
    Connector.use_api_token auth0 username token_name token_value
      = (.error .proxmoxAuthError, auth0) := by
  unfold Connector.use_api_token
  rw [if_pos (by simpa using h)]

/-- Witness for C5 at username `root` with a previously stored token. -/
theorem use_api_token_no_realm_witness :
    Connector.use_api_token (some ⟨none, none, some "OLD"⟩) "root" "demo" "abc123"
      = (.error .proxmoxAuthError, some ⟨none, none, some "OLD"⟩) :=
  use_api_token_no_realm (some ⟨none, none, some "OLD"⟩) "root" "demo" "abc123" (by decide)

/-- C4 counterexample: a ticket request answered with HTTP 500 raises
`ProxmoxAuthError`, not `ProxmoxConnectionError` (every `HTTPError` in
`get_auth_token` lands in the same `except` clause), and a
successful-status non-JSON body escapes as a raw JSON decode error, not
as the module's `ProxmoxError`. -/
theorem get_auth_token_500_not_connection_error :
    (Connector.get_auth_token none (.resp 500 (some (.obj [])))).1
      = .error .proxmoxAuthError
  ∧ (Connector.get_auth_token none (.resp 500 (some (.obj [])))).1
      ≠ .error .proxmoxConnectionError
  ∧ (Connector.get_auth_token none (.resp 200 none)).1 = .error .jsonDecodeError
  ∧ (Connector.get_auth_token none (.resp 200 none)).1 ≠ .error .proxmoxError := by
  refine ⟨rfl, ?_, rfl, ?_⟩ <;> simp [Connector.get_auth_token]

/-- C4 amended: `get_auth_token` maps HTTP 401 to `ProxmoxAuthError` as
claimed, but it maps HTTP 500 (and every other error status) to
`ProxmoxAuthError` as well, and a successful-status response whose body
is not valid JSON raises the underlying JSON decode error rather than a
Proxmox error type; a network-level failure is the one source of
`ProxmoxConnectionError`. -/
theorem get_auth_token_error_mapping (auth0 : Option ProxmoxAuthToken)
    (status : Nat) (body : Option Json) :
    (400 ≤ status →
      (Connector.get_auth_token auth0 (.resp status body)).1 = .error .proxmoxAuthError)
  ∧ (status < 400 →
      (Connector.get_auth_token auth0 (.resp status none)).1 = .error .jsonDecodeError)
  ∧ ((Connector.get_auth_token auth0 .netFail).1 = .error .proxmoxConnectionError) := by
  refine ⟨fun h400 => ?_, fun hlt => ?_, rfl⟩
  · simp [Connector.get_auth_token, h400]
  · have h400 : ¬ 400 ≤ status := by omega
    simp [Connector.get_auth_token, h400]

/-- Witness for the amended C4 at statuses 401, 500 and 200. -/
theorem get_auth_token_error_mapping_witness :
    (Connector.get_auth_token none (.resp 401 (some (.obj [])))).1
      = .error .proxmoxAuthError
  ∧ (Connector.get_auth_token none (.resp 500 (some (.obj [])))).1
      = .error .proxmoxAuthError
  ∧ (Connector.get_auth_token none (.resp 200 none)).1 = .error .jsonDecodeError :=
  ⟨(get_auth_token_error_mapping none 401 (some (.obj []))).1 (by omega),
   (get_auth_token_error_mapping none 500 (some (.obj []))).1 (by omega),
   (get_auth_token_error_mapping none 200 none).2.1 (by omega)⟩

/-- C6: on a successful status whose body decodes to a JSON object, the
call returns the value under `data`, and `None` when the key is absent,
never an error. -/
theorem request_data_envelope (baseurl method fp : String) (params : Option Params)
    (status : Nat) (fields : List (String × Json)) (hs : status < 400) :
    (dictGet "data" fields = none →
      (ConnectorAPI.request baseurl method fp params (.resp status (some (.obj fields)))).2
        = .ok none)
  ∧ (∀ v, dictGet "data" fields = some v →
      (ConnectorAPI.request baseurl method fp params (.resp status (some (.obj fields)))).2
        = .ok (some v)) := by
  have h400 : ¬ 400 ≤ status := by omega
  constructor
  · intro habs
    simp [ConnectorAPI.request, ConnectorAPI.handleResponse, h400, habs]
  · intro v hv
    simp [ConnectorAPI.request, ConnectorAPI.handleResponse, h400, hv]

/-- Witness for C6: `{"status": "ok"}` yields `None`, and
`{"data": 5}` yields `5`, both at status 200. -/
theorem request_data_envelope_witness :
    (ConnectorAPI.request "B" "GET" "p" none
        (.resp 200 (some (.obj [("status", .str "ok")])))).2 = .ok none
  ∧ (ConnectorAPI.request "B" "GET" "p" none
        (.resp 200 (some (.obj [("data", .num 5)])))).2 = .ok (some (.num 5)) :=
  ⟨(request_data_envelope "B" "GET" "p" none 200 [("status", .str "ok")] (by omega)).1 rfl,
   (request_data_envelope "B" "GET" "p" none 200 [("data", .num 5)] (by omega)).2
     (.num 5) rfl⟩

/-- C7: branching two chains from the same root yields independent
Building-state values ending in `nodes/a` and `nodes/b`, and the root
step re-evaluates to the same unchanged value — every transition in the
embedding constructs a fresh value, exactly as the Python methods only
ever construct new `AttrMethod` objects. -/
theorem branching_chains_independent :
    (Proxmox.getattr "nodes").call ["a"] [] = .chained (.building "nodes/a")
  ∧ (Proxmox.getattr "nodes").call ["b"] [] = .chained (.building "nodes/b")
  ∧ PathValue.building "nodes/a" ≠ PathValue.building "nodes/b"
  ∧ Proxmox.getattr "nodes" = .building "nodes" := by
  refine ⟨rfl, rfl, ?_, rfl⟩
  decide

/-- C8 counterexample: `Node.__init__` interpolates the node string into
the base URL as-is, so for the node `"a b"` the resulting base path
holds a raw space where the claim requires the percent-encoded segment
`a%20b`. -/
theorem node_baseurl_not_percent_encoded :
    (Node.init (ConnectorAPI.init "pve.local" 8006 true) "a b").baseurl
      = "https://pve.local:8006/api2/json/nodes/a b"
  ∧ quote "a b" = "a%20b"
  ∧ (Node.init (ConnectorAPI.init "pve.local" 8006 true) "a b").baseurl
      ≠ (Proxmox.init (ConnectorAPI.init "pve.local" 8006 true)).baseurl
          ++ "/nodes/" ++ quote "a b" := by
  refine ⟨rfl, rfl, ?_⟩
  decide

/-- C8 amended: `Node(conn, node)` produces a root whose effective base
path is the generic base extended with `nodes/{node}`, the node string
taken verbatim (not percent-encoded); executing any accumulated path
from it reaches the same URL as executing `nodes/{node}/...` on the
generic root, and chain transitions are those of the generic root. -/
theorem node_root_base_path (conn : ConnectorAPIState) (node p key : String)
    (args : List String) (kwargs : Params) :
    (Node.init conn node).baseurl = (Proxmox.init conn).baseurl ++ "/nodes/" ++ node
  ∧ ConnectorAPI.buildRequest (Node.init conn node).baseurl "GET" p none
      = ConnectorAPI.buildRequest (Proxmox.init conn).baseurl "GET"
          ("nodes/" ++ node ++ "/" ++ p) none
  ∧ Proxmox.getattr key = .building key
  ∧ (Proxmox.getattr key).call args kwargs = AttrMethod.call key args kwargs := by
  refine ⟨rfl, ?_, rfl, rfl⟩
  have hsplit : ("/nodes/" : String) = "/" ++ "nodes/" := by decide
  simp only [Node.init, Proxmox.init, ConnectorAPI.init, ConnectorAPI.buildRequest,
    hsplit, String.append_assoc]

/-- C9: invoking a Building-state value with positional arguments and
keyword arguments together extends the path with the positional
arguments, issues no request, and gives the same result as if the
keyword arguments had not been passed at all. -/
theorem call_mixed_args_discards_kwargs (method_name : String) (args : List String)
    (kwargs : Params) (h : args ≠ []) :
    AttrMethod.call method_name args kwargs
      = .chained (.building (String.intercalate "/" (method_name :: args.map quote)))
  ∧ AttrMethod.call method_name args kwargs = AttrMethod.call method_name args [] := by
  unfold AttrMethod.call
  rw [if_pos h, if_pos h]
  exact ⟨rfl, rfl⟩

/-- Witness for C9: `nodes("pve", full="1")` chains to `nodes/pve`
with the keyword argument dropped. -/
theorem call_mixed_args_discards_kwargs_witness :
    AttrMethod.call "nodes" ["pve"] [("full", "1")]
      = .chained (.building (String.intercalate "/" ("nodes" :: ["pve"].map quote)))
  ∧ AttrMethod.call "nodes" ["pve"] [("full", "1")]
      = AttrMethod.call "nodes" ["pve"] [] :=
  call_mixed_args_discards_kwargs "nodes" ["pve"] [("full", "1")] (by decide)

/-- C10: `quote` keeps `/` unescaped (its `safe` default), so the single
positional argument `a/b` lands in the accumulated path verbatim and
contributes two path segments rather than one percent-encoded one. -/
theorem slash_argument_two_segments :
    quote "a/b" = "a/b"
  ∧ quote "a/b" ≠ "a%2Fb"
  ∧ AttrMethod.call "nodes" ["a/b"] [] = .chained (.building "nodes/a/b")
  ∧ pathSegments "nodes/a/b" = ["nodes", "a", "b"]
  ∧ (pathSegments "nodes/a/b").length = (pathSegments "nodes").length + 2 := by
  refine ⟨rfl, by decide, rfl, by decide, by decide⟩

end Proxmoxia
